import Mathlib

/-!
Verification development for the real-time product statistics and ranking core
of an e-commerce backend (NestJS + Redis + PostgreSQL).

The fast tier is modelled as an explicit state record: one optional integer
per counter key (a missing key models an evicted or never-written Redis key,
and INCRBY on a missing key creates it from 0, as in Redis), a dirty sorted
set mapping product id to its first-dirtied timestamp (ZADD NX keeps the
existing score), and a computed-response cache.  Redis MULTI/EXEC pipelines
are modelled as single atomic state transitions, matching the transactional
semantics of the node-redis multi().exec() calls used by the source.
JavaScript numbers are modelled as Int (counters) and Rat (scores and rates);
Number(null) = 0 is modelled by defaulting a missing key to 0.
-/

namespace EBF

/-- Number(x) applied to a GET result: a missing key reads as 0
(stats.service.ts line 206, results.map(Number) with null mapping to 0). -/
def numOf (o : Option Int) : Int := o.getD 0

/-- Same defaulting for the float-valued boost counter. -/
def qOf (o : Option Rat) : Rat := o.getD 0

/-- JavaScript truthiness of an optional numeric delta: absent and 0 are
falsy, any other number is truthy (the `if (dto.views)` guards in
stats.service.ts lines 136-141). -/
def truthyI (o : Option Int) : Bool :=
  match o with
  | none => false
  | some v => decide (v ≠ 0)

/-- Truthiness for the float-valued boost delta. -/
def truthyQ (o : Option Rat) : Bool :=
  match o with
  | none => false
  | some v => decide (v ≠ 0)

/-- Effect of a guarded `if (delta) pipeline.incrBy(key, delta)` on one
counter key: when the delta is truthy, INCRBY creates a missing key from 0
and adds the delta; otherwise the key is untouched. -/
def bumpI (cur : Option Int) (d : Option Int) : Option Int :=
  if truthyI d then some (cur.getD 0 + d.getD 0) else cur

/-- Effect of the guarded `incrByFloat` on the boost counter key. -/
def bumpQ (cur : Option Rat) (d : Option Rat) : Option Rat :=
  if truthyQ d then some (cur.getD 0 + d.getD 0) else cur

/-- IncrementStatsDto (stats.service.ts lines 40-48): a partial map of
metric deltas for one product. -/
structure IncrementStatsDto where
  productId : Nat
  views : Option Int := none
  clicks : Option Int := none
  organicClicks : Option Int := none
  carts : Option Int := none
  orders : Option Int := none
  boostScore : Option Rat := none
deriving Repr, DecidableEq

/-- The six per-product Redis counter keys (key helpers K.views .. K.boostScore,
stats.service.ts lines 19-31).  none models a missing (evicted) key. -/
structure CounterKeys where
  views : Option Int := none
  clicks : Option Int := none
  organicClicks : Option Int := none
  carts : Option Int := none
  orders : Option Int := none
  boostScore : Option Rat := none
deriving Repr, DecidableEq

/-- A product with no counter keys at all. -/
def CounterKeys.empty : CounterKeys := {}

/-- Counter keys immediately after initializeRedisCounters / a reset
(stats.service.ts lines 113-122): every key set to 0. -/
def CounterKeys.zeroed : CounterKeys :=
  { views := some 0, clicks := some 0, organicClicks := some 0,
    carts := some 0, orders := some 0, boostScore := some 0 }

/-- ProductStatsResponse (stats.service.ts lines 50-60). -/
structure ProductStatsResponse where
  productId : Nat
  totalViews : Int
  clicks : Int
  organicClick : Int
  totalBoostScore : Rat
  totalCarts : Int
  totalOrders : Int
  conversionRate : Rat
  clickThroughRate : Rat
deriving Repr, DecidableEq

/-- The fast-tier (Redis) state: per-product counter keys, the dirty sorted
set (product id mapped to its first-dirtied timestamp), and the computed
response cache. -/
structure RedisState where
  stats : Nat → CounterKeys
  dirty : Nat → Option Nat
  cached : Nat → Option ProductStatsResponse

/-- A fast tier holding nothing at all. -/
def RedisState.empty : RedisState :=
  { stats := fun _ => CounterKeys.empty, dirty := fun _ => none, cached := fun _ => none }

/-- incrementStats (stats.service.ts lines 132-158): one Redis MULTI
transaction that applies every truthy delta with INCRBY/INCRBYFLOAT, adds
the product to the dirty sorted set with ZADD NX (the first-seen score is
kept if the member already exists), and deletes the computed cache entry.
The whole pipeline commits atomically, so it is one state transition. -/
def applyIncrement (st : RedisState) (dto : IncrementStatsDto) (now : Nat) : RedisState :=
  let c := st.stats dto.productId
  let c2 : CounterKeys :=
    { views := bumpI c.views dto.views
      clicks := bumpI c.clicks dto.clicks
      organicClicks := bumpI c.organicClicks dto.organicClicks
      carts := bumpI c.carts dto.carts
      orders := bumpI c.orders dto.orders
      boostScore := bumpQ c.boostScore dto.boostScore }
  { stats := fun p => if p = dto.productId then c2 else st.stats p
    dirty := fun p => if p = dto.productId then some ((st.dirty p).getD now) else st.dirty p
    cached := fun p => if p = dto.productId then none else st.cached p }

/-- A trace of completed incrementStats calls, each tagged with the
Date.now() value it observed. -/
def execTrace (st : RedisState) (tr : List (IncrementStatsDto × Nat)) : RedisState :=
  tr.foldl (fun s c => applyIncrement s c.1 c.2) st

/-- Total views delta contributed to product p by a trace of whole calls. -/
def traceViews (tr : List (IncrementStatsDto × Nat)) (p : Nat) : Int :=
  (tr.map (fun c => if p = c.1.productId then c.1.views.getD 0 else 0)).sum

/-- Total clicks delta contributed to product p by a trace of whole calls. -/
def traceClicks (tr : List (IncrementStatsDto × Nat)) (p : Nat) : Int :=
  (tr.map (fun c => if p = c.1.productId then c.1.clicks.getD 0 else 0)).sum

/-- Total organicClicks delta contributed to product p by a trace. -/
def traceOrganicClicks (tr : List (IncrementStatsDto × Nat)) (p : Nat) : Int :=
  (tr.map (fun c => if p = c.1.productId then c.1.organicClicks.getD 0 else 0)).sum

/-- Total carts delta contributed to product p by a trace of whole calls. -/
def traceCarts (tr : List (IncrementStatsDto × Nat)) (p : Nat) : Int :=
  (tr.map (fun c => if p = c.1.productId then c.1.carts.getD 0 else 0)).sum

/-- Total orders delta contributed to product p by a trace of whole calls. -/
def traceOrders (tr : List (IncrementStatsDto × Nat)) (p : Nat) : Int :=
  (tr.map (fun c => if p = c.1.productId then c.1.orders.getD 0 else 0)).sum

/-- Total boostScore delta contributed to product p by a trace. -/
def traceBoost (tr : List (IncrementStatsDto × Nat)) (p : Nat) : Rat :=
  (tr.map (fun c => if p = c.1.productId then c.1.boostScore.getD 0 else 0)).sum

/-! Ranking engine model (rankings.service.ts).  Sorted sets are association
lists from member (a product id) to score; ZRANGE reads ascending by
(score, member).  For the members used here (small numeric ids rendered as
decimal strings of equal length) the lexicographic member tie-break of Redis
coincides with numeric order.  Timestamps are milliseconds since the epoch. -/

/-- BoostingStatus (boosts.entity.ts). -/
inductive BoostingStatus where
  | active
  | canceled
  | pending
  | expired
deriving Repr, DecidableEq

/-- ProductBoosting entity (boosts.entity.ts); the date columns are kept
optional because isBoostActive null-guards them. -/
structure ProductBoosting where
  boostScore : Int
  productId : Nat
  startDate : Option Nat
  endDate : Option Nat
  status : BoostingStatus
deriving Repr, DecidableEq

/-- ProductStat row (product_stats.entity.ts): the durable per-product
statistics record. -/
structure ProductStatRow where
  productId : Nat
  totalViews : Int := 0
  clicks : Int := 0
  organicClick : Int := 0
  totalBoostScore : Rat := 0
  totalCarts : Int := 0
  totalOrders : Int := 0
deriving Repr, DecidableEq

/-- The slice of the Product entity read by the ranking engine
(product.entity.ts): id, creation time, discount window, and the loaded
stats and boosting relations. -/
structure Product where
  id : Nat
  createdAt : Nat
  discountPercentage : Option Rat := none
  discountStartDate : Option Nat := none
  discountEndDate : Option Nat := none
  stats : ProductStatRow
  boosting : Option ProductBoosting := none
deriving Repr, DecidableEq

/-- RankingWeights (rankings.service.ts lines 11-18). -/
structure RankingWeights where
  viewWeight : Rat
  wishlistWeight : Rat
  cartWeight : Rat
  orderWeight : Rat
  boostMultiplier : Rat
  recencyWeight : Rat
deriving Repr, DecidableEq

/-- Default ranking weights (rankings.service.ts lines 28-35). -/
def weights : RankingWeights :=
  { viewWeight := 1, wishlistWeight := 3, cartWeight := 5, orderWeight := 10,
    boostMultiplier := 2, recencyWeight := 1/10 }

/-- isBoostActive (rankings.service.ts lines 74-82): status must be active
and the current time must not lie strictly before startDate nor strictly
after endDate (missing dates are not checked, mirroring the JS null guards). -/
def isBoostActive (boost : ProductBoosting) (now : Nat) : Bool :=
  if boost.status ≠ BoostingStatus.active then false
  else if (match boost.startDate with | some s => decide (now < s) | none => false) then false
  else if (match boost.endDate with | some e => decide (e < now) | none => false) then false
  else true

/-- The boost multiplier applied in calculateTrendingScore line 63:
`boost && this.isBoostActive(boost)`. -/
def boostIsActive (boost : Option ProductBoosting) (now : Nat) : Bool :=
  match boost with
  | some b => isBoostActive b now
  | none => false

/-- calculateTrendingScore (rankings.service.ts lines 51-69).  Note which
weight multiplies which counter: totalCarts is multiplied by wishlistWeight
(3) and clicks by cartWeight (5). -/
def calculateTrendingScore (stats : ProductStatRow) (boost : Option ProductBoosting)
    (createdDaysAgo : Int) (now : Nat) : Rat :=
  let baseScore : Rat :=
    (stats.totalViews : Rat) * weights.viewWeight +
    (stats.totalCarts : Rat) * weights.wishlistWeight +
    (stats.clicks : Rat) * weights.cartWeight +
    (stats.totalOrders : Rat) * weights.orderWeight
  let boostMultiplier : Rat := if boostIsActive boost now then weights.boostMultiplier else 1
  let recencyScore : Rat := ((max 0 (30 - createdDaysAgo) : Int) : Rat) * weights.recencyWeight
  (baseScore + recencyScore) * boostMultiplier

/-- Trending score exactly as the claim words it: views*1 + carts*5 +
clicks*3 + orders*10 plus recency, times the boost multiplier.  This
definition follows the claim text, to be compared with
calculateTrendingScore, which follows the source. -/
def claimedTrendingScore (stats : ProductStatRow) (boost : Option ProductBoosting)
    (createdDaysAgo : Int) (now : Nat) : Rat :=
  ((stats.totalViews : Rat) * 1 + (stats.totalCarts : Rat) * 5 +
    (stats.clicks : Rat) * 3 + (stats.totalOrders : Rat) * 10 +
    ((max 0 (30 - createdDaysAgo) : Int) : Rat) * (1/10))
  * (if boostIsActive boost now then 2 else 1)

/-- hasActiveDiscount (rankings.service.ts lines 132-140): falsy
discountPercentage (absent or 0) means no discount; otherwise the current
time must not lie strictly before the start nor strictly after the end. -/
def hasActiveDiscount (p : Product) (now : Nat) : Bool :=
  match p.discountPercentage with
  | none => false
  | some d =>
    if d = 0 then false
    else if (match p.discountStartDate with | some s => decide (now < s) | none => false) then false
    else if (match p.discountEndDate with | some e => decide (e < now) | none => false) then false
    else true

/-- A Redis sorted set: an association list from member to score, no member
repeated. -/
abbrev ZSet := List (Nat × Rat)

/-- ZADD (update the score of an existing member, or append a new member). -/
def zadd (z : ZSet) (m : Nat) (s : Rat) : ZSet :=
  if z.any (fun e => e.1 = m) then z.map (fun e => if e.1 = m then (m, s) else e)
  else z ++ [(m, s)]

/-- ZREM. -/
def zrem (z : ZSet) (m : Nat) : ZSet :=
  z.filter (fun e => e.1 ≠ m)

/-- Sorted-set ordering: ascending by score, ties broken by member. -/
def zkeyLe (a b : Nat × Rat) : Bool :=
  if a.2 < b.2 then true
  else if b.2 < a.2 then false
  else decide (a.1 ≤ b.1)

/-- Insertion step of the ascending sort. -/
def zinsert (x : Nat × Rat) : List (Nat × Rat) → List (Nat × Rat)
  | [] => [x]
  | y :: ys => if zkeyLe x y then x :: y :: ys else y :: zinsert x ys

/-- Sort a sorted-set representation ascending by (score, member), the order
ZRANGE traverses. -/
def zsortAsc : List (Nat × Rat) → List (Nat × Rat)
  | [] => []
  | x :: xs => zinsert x (zsortAsc xs)

/-- ZRANGE key start stop (redis.service.ts lines 94-101): members in
ascending score order from index start to index stop, both inclusive. -/
def zrangeIdx (z : ZSet) (start stop : Nat) : List Nat :=
  ((((zsortAsc z).map Prod.fst).drop start).take (stop + 1 - start))

/-- The four rank indexes maintained by RankingsService. -/
structure RankState where
  trending : ZSet
  popular : ZSet
  newArrivals : ZSet
  discounted : ZSet
deriving Repr, DecidableEq

/-- Empty rank indexes. -/
def RankState.empty : RankState := ⟨[], [], [], []⟩

/-- The product age used by updateProductRanking (rankings.service.ts lines
100-102): Math.floor((Date.now() - new Date(product.id).getTime()) / day).
The source interprets the numeric product id itself as a timestamp. -/
def createdDaysAgoCode (p : Product) (now : Nat) : Int :=
  Int.fdiv ((now : Int) - (p.id : Int)) 86400000

/-- The actual age in whole days measured from the creation time. -/
def ageInDaysFromCreation (p : Product) (now : Nat) : Int :=
  Int.fdiv ((now : Int) - (p.createdAt : Int)) 86400000

/-- updateProductRanking (rankings.service.ts lines 87-127): upsert the
trending score; upsert or remove the discounted entry; and when
createdDaysAgo is at most 30, upsert the product into new-arrivals with
score Date.now(). -/
def updateProductRanking (rk : RankState) (p : Product) (now : Nat) : RankState :=
  let createdDaysAgo := createdDaysAgoCode p now
  let score := calculateTrendingScore p.stats p.boosting createdDaysAgo now
  let rk1 := { rk with trending := zadd rk.trending p.id score }
  let rk2 :=
    if hasActiveDiscount p now then
      { rk1 with discounted := zadd rk1.discounted p.id (p.discountPercentage.getD 0) }
    else
      { rk1 with discounted := zrem rk1.discounted p.id }
  if createdDaysAgo ≤ 30 then
    { rk2 with newArrivals := zadd rk2.newArrivals p.id ((now : Int) : Rat) }
  else rk2

/-- getTrendingProducts (rankings.service.ts lines 156-167): it reads
zrange(TRENDING_KEY, offset, limit), so offset is the start index and limit
is the (inclusive) stop index of a plain ascending ZRANGE. -/
def getTrendingProducts (limit offset : Nat) (trending : ZSet) : List Nat :=
  zrangeIdx trending offset limit

/-- Stats row used by the C2 counterexample: one cart action, nothing else. -/
def statsRowOneCart : ProductStatRow := { productId := 1, totalCarts := 1 }

/-- Trending index with products A=1 (score 10), B=2 (score 25), C=3
(score 25), the configuration named by the claim about getTrendingProducts. -/
def trendingABC : ZSet := [(1, 10), (2, 25), (3, 25)]

/-- A five-member trending index, to measure how many ids a limit-3 query
returns. -/
def trendingFive : ZSet := [(1, 10), (2, 25), (3, 25), (4, 7), (5, 40)]

/-- A concrete Date.now() used by the ranking counterexamples:
2025-10-11T00:00:00Z in milliseconds. -/
def nowMs : Nat := 1760140800000

/-- A freshly created product (createdAt = now, so its true age is 0 days)
with ordinary small id 1 and zero counters. -/
def freshProduct : Product :=
  { id := 1, createdAt := nowMs, stats := { productId := 1 } }

/-- A hypothetical product whose id happens to equal the current epoch
milliseconds, created five days ago; the only kind of product for which the
new-arrivals branch of the source is taken. -/
def epochIdProduct : Product :=
  { id := nowMs, createdAt := nowMs - 432000000, stats := { productId := nowMs } }

/-! Stat-operation traces: the incrementStats call sites found in the
repository, used to settle the counter non-negativity claim. -/

/-- Dto of handleIncrementViews (productQueue.ts lines 52-67) and of the
view worker: views := 1. -/
def viewDto (p : Nat) : IncrementStatsDto := { productId := p, views := some 1 }

/-- Dto of handleIncrementCarts (productQueue.ts lines 69-84) and of the
CART_ADD_JOB branch of CartWorker.process: carts := quantity. -/
def cartAddDto (p qty : Nat) : IncrementStatsDto :=
  { productId := p, carts := some (qty : Int) }

/-- Dto of the CART_REMOVE_JOB branch of CartWorker.process (cart worker
lines 38-45): carts := -quantity. -/
def cartRemoveDto (p qty : Nat) : IncrementStatsDto :=
  { productId := p, carts := some (-(qty : Int)) }

/-- Dto of handleIncrementOrders (productQueue.ts lines 86-101):
orders := quantity. -/
def orderDto (p qty : Nat) : IncrementStatsDto :=
  { productId := p, orders := some (qty : Int) }

/-- Dto of handleStatsUpdate (productQueue.ts lines 118-150): views := 1
when incrementViews is set and carts := 1 when incrementCarts is set. -/
def statsUpdateDto (p : Nat) (v c : Bool) : IncrementStatsDto :=
  { productId := p, views := if v then some 1 else none,
    carts := if c then some 1 else none }

/-- Dto of the boost worker: boostScore := plus or minus the boost amount. -/
def boostDto (p : Nat) (d : Rat) : IncrementStatsDto :=
  { productId := p, boostScore := some d }

/-- One stat operation, one per incrementStats call site in the repository,
plus the counter reset and the (empty) scheduled flush. -/
inductive StatOp where
  | viewTracked (p : Nat)
  | statsUpdateJob (p : Nat) (incViews incCarts : Bool)
  | cartAdded (p : Nat) (qty : Nat)
  | cartRemoved (p : Nat) (qty : Nat)
  | orderPlaced (p : Nat) (qty : Nat)
  | boostChanged (p : Nat) (delta : Rat)
  | resetCounters (p : Nat)
  | flushTick
deriving Repr, DecidableEq

/-- resetStats / initializeRedisCounters effect on the fast tier
(stats.service.ts lines 113-122 and 453-461): every counter key of the
product set to 0 and the computed cache entry deleted. -/
def applyReset (st : RedisState) (p : Nat) : RedisState :=
  { stats := fun q => if q = p then CounterKeys.zeroed else st.stats q
    dirty := st.dirty
    cached := fun q => if q = p then none else st.cached q }

/-- Fast-tier effect of one stat operation.  handleStatsUpdate only calls
incrementStats when at least one delta is set (the Object.keys guard). -/
def applyOp (st : RedisState) (op : StatOp) (now : Nat) : RedisState :=
  match op with
  | .viewTracked p => applyIncrement st (viewDto p) now
  | .statsUpdateJob p v c =>
      if v || c then applyIncrement st (statsUpdateDto p v c) now else st
  | .cartAdded p qty => applyIncrement st (cartAddDto p qty) now
  | .cartRemoved p qty => applyIncrement st (cartRemoveDto p qty) now
  | .orderPlaced p qty => applyIncrement st (orderDto p qty) now
  | .boostChanged p d => applyIncrement st (boostDto p d) now
  | .resetCounters p => applyReset st p
  | .flushTick => st

/-- A trace of stat operations, each tagged with its Date.now() value. -/
def execOps (st : RedisState) (tr : List (StatOp × Nat)) : RedisState :=
  tr.foldl (fun s c => applyOp s c.1 c.2) st

/-- Non-negativity of the four counters that no call site ever decrements:
views, clicks, organicClicks and orders (carts is excluded, because the
cart-remove worker decrements it). -/
def NonnegNonCartCounters (c : CounterKeys) : Prop :=
  0 ≤ numOf c.views ∧ 0 ≤ numOf c.clicks ∧ 0 ≤ numOf c.organicClicks ∧ 0 ≤ numOf c.orders

/-! Increment Gateway model: the Counter Store calls issued for one tracked
business event (events service, trackEvent lines 46-65 feeding the
product-queue processors). -/

/-- ProductEventType (events.entity.ts lines 13-17). -/
inductive ProductEventType where
  | view
  | add_to_cart
  | order
deriving Repr, DecidableEq

/-- The fast-tier keys touched by the event gateway, one constructor per
key template used in the source. -/
inductive EventCounterKey where
  | views (p : Nat)
  | carts (p : Nat)
  | orders (p : Nat)
  | uniqueViewers (p : Nat)
  | daily (p : Nat) (e : ProductEventType) (day : Nat)
deriving Repr, DecidableEq

/-- One Counter Store round trip: a single-key INCR, a HyperLogLog PFADD,
or one (atomic, pipelined) incrementStats call. -/
inductive CounterStoreCall where
  | incrKey (k : EventCounterKey)
  | pfAddKey (k : EventCounterKey) (member : Nat)
  | statsIncrement (dto : IncrementStatsDto)
deriving Repr, DecidableEq

/-- incrementEventCounters (events service lines 70-103): per event type,
the immediate single-key increments, always followed by the daily counter
increment. -/
def incrementEventCounterCalls (pid uid : Nat) (e : ProductEventType) (day : Nat) :
    List CounterStoreCall :=
  (match e with
   | .view => [.incrKey (.views pid), .pfAddKey (.uniqueViewers pid) uid]
   | .add_to_cart => [.incrKey (.carts pid)]
   | .order => [.incrKey (.orders pid)])
  ++ [.incrKey (.daily pid e day)]

/-- The deferred Counter Store call produced by the job queued in
queueEventJobs (events service lines 142-197): the product-queue processor
for the job calls incrementStats once with the corresponding delta. -/
def queuedStatsCalls (pid qty : Nat) (e : ProductEventType) : List CounterStoreCall :=
  match e with
  | .view => [.statsIncrement (viewDto pid)]
  | .add_to_cart => [.statsIncrement (cartAddDto pid qty)]
  | .order => [.statsIncrement (orderDto pid qty)]

/-- All Counter Store calls made for one event accepted by trackEvent:
the immediate increments of incrementEventCounters plus the deferred
incrementStats call of the queued job. -/
def trackEventCounterCalls (pid uid qty : Nat) (e : ProductEventType) (day : Nat) :
    List CounterStoreCall :=
  incrementEventCounterCalls pid uid e day ++ queuedStatsCalls pid qty e

/-! Sync engine model: the flush paths as they stand in the source. -/

/-- Combined system state: the fast tier plus the durable product_stats
table (productId to row). -/
structure SysState where
  redis : RedisState
  db : Nat → Option ProductStatRow

/-- scheduledFlush (stats.service.ts lines 465-469): the 10-second cron
handler whose body — the call to flushDirtyStats — is commented out in the
source, so the handler changes nothing. -/
def scheduledFlush (st : SysState) : SysState := st

/-- One ZADD of the dirty set without NX (stats.service.ts line 433): the
score is overwritten with now. -/
def markDirty (r : RedisState) (id : Nat) (now : Nat) : RedisState :=
  { r with dirty := fun p => if p = id then some now else r.dirty p }

/-- syncRedisToDatabase (stats.service.ts lines 406-449): walks the ids in
batches and marks every id dirty; the per-batch call to flushDirtyStats is
commented out, so no counters are read and no row is written to the
database.  Returns the count it reports as synced. -/
def syncRedisToDatabase (st : SysState) (ids : List Nat) (now : Nat) : SysState × Nat :=
  (⟨ids.foldl (fun r id => markDirty r id now) st.redis, st.db⟩, ids.length)

/-- A system state with product 7 dirty since time 1000, fast-tier views 5,
and a zeroed durable row — a flush should write views 5 to the row and
clear the dirty mark. -/
def dirtySevenState : SysState :=
  { redis :=
      { stats := fun q => if q = 7 then { CounterKeys.zeroed with views := some 5 }
                          else CounterKeys.empty
        dirty := fun q => if q = 7 then some 1000 else none
        cached := fun _ => none }
    db := fun q => if q = 7 then some { productId := 7 } else none }

/-! Read-path model: getStats (stats.service.ts lines 190-237). -/

/-- Result of one getStats call: the response, the fast-tier state after
the call, and whether the durable store was consulted. -/
structure GetStatsOut where
  resp : ProductStatsResponse
  redis : RedisState
  dbHit : Bool

/-- The response object built at stats.service.ts lines 223-233 from the
final local values, with the guarded rate computations. -/
def mkResponse (p : Nat) (v cl oc ca od : Int) (bs : Rat) : ProductStatsResponse :=
  { productId := p, totalViews := v, clicks := cl, organicClick := oc,
    totalBoostScore := bs, totalCarts := ca, totalOrders := od,
    conversionRate := if 0 < v then ((od : Rat) / (v : Rat)) * 100 else 0,
    clickThroughRate := if 0 < v then ((cl : Rat) / (v : Rat)) * 100 else 0 }

/-- seedRedisFromDB (stats.service.ts lines 504-514): set every counter key
of the row's product from the durable row. -/
def seedFromRow (r : RedisState) (row : ProductStatRow) : RedisState :=
  { r with stats := fun p =>
      if p = row.productId then
        { views := some row.totalViews, clicks := some row.clicks,
          organicClicks := some row.organicClick, carts := some row.totalCarts,
          orders := some row.totalOrders, boostScore := some row.totalBoostScore }
      else r.stats p }

/-- The final cache write of getStats (stats.service.ts line 235). -/
def writeCache (r : RedisState) (p : Nat) (resp : ProductStatsResponse) : RedisState :=
  { r with cached := fun q => if q = p then some resp else r.cached q }

/-- getStats (stats.service.ts lines 190-237): computed-cache hit, else the
raw counters (absent keys reading as 0); when views, clicks and carts all
read 0, fall back to the durable row and re-seed the counters from it; the
response is built from the final values and written into the computed
cache. -/
def getStats (r : RedisState) (db : Nat → Option ProductStatRow) (p : Nat) : GetStatsOut :=
  match r.cached p with
  | some resp => ⟨resp, r, false⟩
  | none =>
    let c := r.stats p
    let v0 := numOf c.views
    let cl0 := numOf c.clicks
    let oc0 := numOf c.organicClicks
    let ca0 := numOf c.carts
    let od0 := numOf c.orders
    let bs0 := qOf c.boostScore
    let tmp : (Int × Int × Int × Int × Int × Rat) × RedisState × Bool :=
      if v0 = 0 ∧ cl0 = 0 ∧ ca0 = 0 then
        match db p with
        | some row =>
          ((row.totalViews, row.clicks, row.organicClick, row.totalCarts, row.totalOrders,
            row.totalBoostScore), seedFromRow r row, true)
        | none => ((v0, cl0, oc0, ca0, od0, bs0), r, true)
      else ((v0, cl0, oc0, ca0, od0, bs0), r, false)
    let resp := mkResponse p tmp.1.1 tmp.1.2.1 tmp.1.2.2.1 tmp.1.2.2.2.1 tmp.1.2.2.2.2.1
      tmp.1.2.2.2.2.2
    ⟨resp, writeCache tmp.2.1 p resp, tmp.2.2⟩

/-- The rate contract of a stats response, as the claim words it: with
positive views the rates are orders/views*100 and clicks/views*100, and
with zero views both rates are 0. -/
def RatesHold (resp : ProductStatsResponse) : Prop :=
  (0 < resp.totalViews →
    resp.conversionRate = ((resp.totalOrders : Rat) / (resp.totalViews : Rat)) * 100
    ∧ resp.clickThroughRate = ((resp.clicks : Rat) / (resp.totalViews : Rat)) * 100)
  ∧ (resp.totalViews = 0 → resp.conversionRate = 0 ∧ resp.clickThroughRate = 0)

/-- Durable row used by the eviction-fallback witness: product 3 with 50
total views. -/
def rowFifty : ProductStatRow := { productId := 3, totalViews := 50 }

/-- Durable table holding only rowFifty. -/
def dbFifty : Nat → Option ProductStatRow := fun q => if q = 3 then some rowFifty else none

/-- Fast tier with product 1 holding 200 views and 10 orders and no
computed cache entry. -/
def redisTwoHundredViews : RedisState :=
  { stats := fun q => if q = 1 then
      { CounterKeys.empty with views := some 200, orders := some 10 }
    else CounterKeys.empty
    dirty := fun _ => none
    cached := fun _ => none }

/-- An empty durable table. -/
def dbEmpty : Nat → Option ProductStatRow := fun _ => none

end EBF

namespace EBF

theorem numOf_bumpI (cur d : Option Int) : numOf (bumpI cur d) = numOf cur + d.getD 0 := by
  cases d with
  | none => simp [bumpI, truthyI, numOf]
  | some v =>
    by_cases hv : v = 0 <;> simp [bumpI, truthyI, hv, numOf]

theorem qOf_bumpQ (cur d : Option Rat) : qOf (bumpQ cur d) = qOf cur + d.getD 0 := by
  cases d with
  | none => simp [bumpQ, truthyQ, qOf]
  | some v =>
    by_cases hv : v = 0 <;> simp [bumpQ, truthyQ, hv, qOf]

theorem applyIncrement_views (st : RedisState) (dto : IncrementStatsDto) (now p : Nat) :
    numOf (((applyIncrement st dto now).stats p).views)
      = numOf ((st.stats p).views) + (if p = dto.productId then dto.views.getD 0 else 0) := by
  by_cases h : p = dto.productId <;> simp [applyIncrement, h, numOf_bumpI]

theorem applyIncrement_clicks (st : RedisState) (dto : IncrementStatsDto) (now p : Nat) :
    numOf (((applyIncrement st dto now).stats p).clicks)
      = numOf ((st.stats p).clicks) + (if p = dto.productId then dto.clicks.getD 0 else 0) := by
  by_cases h : p = dto.productId <;> simp [applyIncrement, h, numOf_bumpI]

theorem applyIncrement_organicClicks (st : RedisState) (dto : IncrementStatsDto) (now p : Nat) :
    numOf (((applyIncrement st dto now).stats p).organicClicks)
      = numOf ((st.stats p).organicClicks)
        + (if p = dto.productId then dto.organicClicks.getD 0 else 0) := by
  by_cases h : p = dto.productId <;> simp [applyIncrement, h, numOf_bumpI]

theorem applyIncrement_carts (st : RedisState) (dto : IncrementStatsDto) (now p : Nat) :
    numOf (((applyIncrement st dto now).stats p).carts)
      = numOf ((st.stats p).carts) + (if p = dto.productId then dto.carts.getD 0 else 0) := by
  by_cases h : p = dto.productId <;> simp [applyIncrement, h, numOf_bumpI]

theorem applyIncrement_orders (st : RedisState) (dto : IncrementStatsDto) (now p : Nat) :
    numOf (((applyIncrement st dto now).stats p).orders)
      = numOf ((st.stats p).orders) + (if p = dto.productId then dto.orders.getD 0 else 0) := by
  by_cases h : p = dto.productId <;> simp [applyIncrement, h, numOf_bumpI]

theorem applyIncrement_boost (st : RedisState) (dto : IncrementStatsDto) (now p : Nat) :
    qOf (((applyIncrement st dto now).stats p).boostScore)
      = qOf ((st.stats p).boostScore) + (if p = dto.productId then dto.boostScore.getD 0 else 0) := by
  by_cases h : p = dto.productId <;> simp [applyIncrement, h, qOf_bumpQ]

theorem applyIncrement_dirty (st : RedisState) (dto : IncrementStatsDto) (now p : Nat) :
    ((applyIncrement st dto now).dirty p).isSome
      = (((st.dirty p).isSome : Bool) || decide (p = dto.productId)) := by
  by_cases h : p = dto.productId <;> simp [applyIncrement, h]

theorem applyIncrement_cached (st : RedisState) (dto : IncrementStatsDto) (now p : Nat) :
    (applyIncrement st dto now).cached p
      = if p = dto.productId then none else st.cached p := by
  by_cases h : p = dto.productId <;> simp [applyIncrement, h]

theorem execTrace_effect (tr : List (IncrementStatsDto × Nat)) :
    ∀ (st : RedisState) (p : Nat),
      numOf (((execTrace st tr).stats p).views) = numOf ((st.stats p).views) + traceViews tr p
      ∧ numOf (((execTrace st tr).stats p).clicks) = numOf ((st.stats p).clicks) + traceClicks tr p
      ∧ numOf (((execTrace st tr).stats p).organicClicks)
          = numOf ((st.stats p).organicClicks) + traceOrganicClicks tr p
      ∧ numOf (((execTrace st tr).stats p).carts) = numOf ((st.stats p).carts) + traceCarts tr p
      ∧ numOf (((execTrace st tr).stats p).orders) = numOf ((st.stats p).orders) + traceOrders tr p
      ∧ qOf (((execTrace st tr).stats p).boostScore)
          = qOf ((st.stats p).boostScore) + traceBoost tr p
      ∧ (((execTrace st tr).dirty p).isSome = true
          ↔ ((st.dirty p).isSome = true ∨ ∃ c ∈ tr, p = c.1.productId))
      ∧ ((execTrace st tr).cached p
          = if (∃ c ∈ tr, p = c.1.productId) then none else st.cached p) := by
  induction tr with
  | nil =>
    intro st p
    simp [execTrace, traceViews, traceClicks, traceOrganicClicks, traceCarts, traceOrders,
      traceBoost]
  | cons c tr ih =>
    intro st p
    have hstep : execTrace st (c :: tr) = execTrace (applyIncrement st c.1 c.2) tr := by
      simp [execTrace]
    obtain ⟨h1, h2, h3, h4, h5, h6, h7, h8⟩ := ih (applyIncrement st c.1 c.2) p
    rw [hstep]
    refine ⟨?_, ?_, ?_, ?_, ?_, ?_, ?_, ?_⟩
    · rw [h1, applyIncrement_views]
      simp [traceViews]
      ring
    · rw [h2, applyIncrement_clicks]
      simp [traceClicks]
      ring
    · rw [h3, applyIncrement_organicClicks]
      simp [traceOrganicClicks]
      ring
    · rw [h4, applyIncrement_carts]
      simp [traceCarts]
      ring
    · rw [h5, applyIncrement_orders]
      simp [traceOrders]
      ring
    · rw [h6, applyIncrement_boost]
      simp [traceBoost]
      ring
    · rw [h7, applyIncrement_dirty]
      by_cases hp : p = c.1.productId <;> simp [hp]
    · rw [h8, applyIncrement_cached]
      by_cases hp : p = c.1.productId
      · by_cases he : ∃ d ∈ tr, p = d.1.productId <;> simp [hp, he]
      · by_cases he : ∃ d ∈ tr, p = d.1.productId <;> simp [hp, he]

/-- C4: every incrementStats call commits as one atomic batch.  In any
interleaving of completed incrementStats calls, an observer reading the
counters of product p after any prefix of k calls sees exactly the initial
values plus the summed deltas of the whole calls in that prefix — never one
metric of a call without the others — and sees the dirty-mark for p exactly
when p was already dirty or some call of the observed prefix targeted p, so
the dirty-mark is never observed without the counter updates of its call. -/
theorem increment_trace_atomic (st : RedisState) (tr : List (IncrementStatsDto × Nat))
    (k : Nat) (p : Nat) :
    numOf (((execTrace st (tr.take k)).stats p).views)
        = numOf ((st.stats p).views) + traceViews (tr.take k) p
    ∧ numOf (((execTrace st (tr.take k)).stats p).clicks)
        = numOf ((st.stats p).clicks) + traceClicks (tr.take k) p
    ∧ numOf (((execTrace st (tr.take k)).stats p).organicClicks)
        = numOf ((st.stats p).organicClicks) + traceOrganicClicks (tr.take k) p
    ∧ numOf (((execTrace st (tr.take k)).stats p).carts)
        = numOf ((st.stats p).carts) + traceCarts (tr.take k) p
    ∧ numOf (((execTrace st (tr.take k)).stats p).orders)
        = numOf ((st.stats p).orders) + traceOrders (tr.take k) p
    ∧ qOf (((execTrace st (tr.take k)).stats p).boostScore)
        = qOf ((st.stats p).boostScore) + traceBoost (tr.take k) p
    ∧ (((execTrace st (tr.take k)).dirty p).isSome = true
        ↔ ((st.dirty p).isSome = true ∨ ∃ c ∈ tr.take k, p = c.1.productId)) :=
  let h := execTrace_effect (tr.take k) st p
  ⟨h.1, h.2.1, h.2.2.1, h.2.2.2.1, h.2.2.2.2.1, h.2.2.2.2.2.1, h.2.2.2.2.2.2.1⟩

/-- C10: incrementStats unconditionally marks the product dirty (ZADD NX
keeps the first-seen timestamp when the product is already dirty, and stamps
now otherwise) and deletes its computed-stats cache entry, even when every
delta field of the call is absent or zero. -/
theorem increment_always_dirty_and_invalidate (st : RedisState) (dto : IncrementStatsDto)
    (now : Nat) :
    (applyIncrement st dto now).dirty dto.productId
        = some ((st.dirty dto.productId).getD now)
    ∧ (applyIncrement st dto now).cached dto.productId = none := by
  constructor <;> simp [applyIncrement]

/-- C2 counterexample: for a product whose only activity is a single cart
action (and no boost, age 30 days so zero recency), the code computes
trending score 3 — totalCarts is multiplied by wishlistWeight = 3 — while
the claimed formula carts*5 + clicks*3 gives 5.  The claim as stated is
false on the code. -/
theorem trending_score_claim_counterexample :
    calculateTrendingScore statsRowOneCart none 30 0 = 3
    ∧ claimedTrendingScore statsRowOneCart none 30 0 = 5
    ∧ calculateTrendingScore statsRowOneCart none 30 0
        ≠ claimedTrendingScore statsRowOneCart none 30 0 := by
  refine ⟨?_, ?_, ?_⟩ <;>
    norm_num [calculateTrendingScore, claimedTrendingScore, statsRowOneCart, weights,
      boostIsActive]

/-- C2 amended: for every product, the trending score computed by the
ranking engine equals (views*1 + carts*3 + clicks*5 + orders*10 +
max(0, 30 - ageInDays)*0.1) multiplied by 2.0 when an active boost exists
and by 1.0 otherwise — the code applies wishlistWeight = 3 to carts and
cartWeight = 5 to clicks, the opposite pairing to the one claimed. -/
theorem trending_score_code_formula (stats : ProductStatRow) (boost : Option ProductBoosting)
    (createdDaysAgo : Int) (now : Nat) :
    calculateTrendingScore stats boost createdDaysAgo now
      = ((stats.totalViews : Rat) * 1 + (stats.totalCarts : Rat) * 3 +
          (stats.clicks : Rat) * 5 + (stats.totalOrders : Rat) * 10 +
          ((max 0 (30 - createdDaysAgo) : Int) : Rat) * (1/10))
        * (if boostIsActive boost now then 2 else 1) := by
  by_cases h : boostIsActive boost now = true
  · simp only [calculateTrendingScore, weights, h, if_true]
  · simp only [calculateTrendingScore, weights, h, if_false]

/-- C3: evaluated at the configuration named by the claim — A=1 with score
10, B=2 and C=3 with score 25 — getTrendingProducts(limit 3, offset 0)
returns [1, 2, 3]: product A, the lowest score, comes first, because the
underlying read is a plain ascending ZRANGE, contradicting both the claim
and the highest-score-first comment in the source.  Moreover the stop bound
passed is limit itself, an inclusive index, so a five-member index yields 4
ids for limit 3 instead of at most 3. -/
theorem trending_query_ascending_and_overcount :
    getTrendingProducts 3 0 trendingABC = [1, 2, 3]
    ∧ getTrendingProducts 3 0 trendingFive = [4, 1, 2, 3] := by
  refine ⟨by decide, by decide⟩

/-- C7: updateProductRanking measures product age from new Date(product.id),
not from the creation time.  For a product with id 1 created exactly at the
current instant (true age 0 days), the computed createdDaysAgo is 20371
days, so the product is not upserted into the new-arrivals index even though
its age from creation is 0 ≤ 30 days.  And for a product whose id is large
enough to take the branch, the score written is Date.now(), not the creation
timestamp. -/
theorem new_arrivals_membership_bug :
    ageInDaysFromCreation freshProduct nowMs = 0
    ∧ createdDaysAgoCode freshProduct nowMs = 20371
    ∧ (updateProductRanking RankState.empty freshProduct nowMs).newArrivals = []
    ∧ (updateProductRanking RankState.empty epochIdProduct nowMs).newArrivals
        = [(nowMs, ((nowMs : Int) : Rat))]
    ∧ ((nowMs : Int) : Rat) ≠ ((epochIdProduct.createdAt : Int) : Rat) := by
  refine ⟨by decide, by decide, by decide, by decide, by decide⟩

theorem applyIncrement_preserves_nonneg (st : RedisState) (dto : IncrementStatsDto) (now : Nat)
    (hv : 0 ≤ dto.views.getD 0) (hcl : 0 ≤ dto.clicks.getD 0)
    (hoc : 0 ≤ dto.organicClicks.getD 0) (hod : 0 ≤ dto.orders.getD 0)
    (h : ∀ q, NonnegNonCartCounters (st.stats q)) :
    ∀ q, NonnegNonCartCounters ((applyIncrement st dto now).stats q) := by
  intro q
  obtain ⟨h1, h2, h3, h4⟩ := h q
  refine ⟨?_, ?_, ?_, ?_⟩
  · rw [applyIncrement_views]
    split <;> omega
  · rw [applyIncrement_clicks]
    split <;> omega
  · rw [applyIncrement_organicClicks]
    split <;> omega
  · rw [applyIncrement_orders]
    split <;> omega

theorem applyOp_preserves_nonneg (st : RedisState) (op : StatOp) (now : Nat)
    (h : ∀ q, NonnegNonCartCounters (st.stats q)) :
    ∀ q, NonnegNonCartCounters ((applyOp st op now).stats q) := by
  cases op with
  | viewTracked p =>
    exact applyIncrement_preserves_nonneg st (viewDto p) now (by simp [viewDto])
      (by simp [viewDto]) (by simp [viewDto]) (by simp [viewDto]) h
  | statsUpdateJob p v c =>
    by_cases hvc : (v || c) = true
    · intro q
      have := applyIncrement_preserves_nonneg st (statsUpdateDto p v c) now
        (by cases v <;> simp [statsUpdateDto]) (by simp [statsUpdateDto])
        (by simp [statsUpdateDto]) (by simp [statsUpdateDto]) h q
      simpa [applyOp, hvc] using this
    · intro q
      simpa [applyOp, hvc] using h q
  | cartAdded p qty =>
    exact applyIncrement_preserves_nonneg st (cartAddDto p qty) now (by simp [cartAddDto])
      (by simp [cartAddDto]) (by simp [cartAddDto]) (by simp [cartAddDto]) h
  | cartRemoved p qty =>
    exact applyIncrement_preserves_nonneg st (cartRemoveDto p qty) now (by simp [cartRemoveDto])
      (by simp [cartRemoveDto]) (by simp [cartRemoveDto]) (by simp [cartRemoveDto]) h
  | orderPlaced p qty =>
    exact applyIncrement_preserves_nonneg st (orderDto p qty) now (by simp [orderDto])
      (by simp [orderDto]) (by simp [orderDto]) (by simp [orderDto]) h
  | boostChanged p d =>
    exact applyIncrement_preserves_nonneg st (boostDto p d) now (by simp [boostDto])
      (by simp [boostDto]) (by simp [boostDto]) (by simp [boostDto]) h
  | resetCounters p =>
    intro q
    by_cases hq : q = p
    · refine ⟨?_, ?_, ?_, ?_⟩ <;> simp [applyOp, applyReset, hq, CounterKeys.zeroed, numOf]
    · simpa [applyOp, applyReset, hq] using h q
  | flushTick =>
    exact h

theorem execOps_preserves_nonneg (tr : List (StatOp × Nat)) :
    ∀ st : RedisState, (∀ q, NonnegNonCartCounters (st.stats q)) →
      ∀ q, NonnegNonCartCounters ((execOps st tr).stats q) := by
  induction tr with
  | nil =>
    intro st h q
    simpa [execOps] using h q
  | cons c tr ih =>
    intro st h q
    have hstep : execOps st (c :: tr) = execOps (applyOp st c.1 c.2) tr := by
      simp [execOps]
    rw [hstep]
    exact ih _ (applyOp_preserves_nonneg st c.1 c.2 h) q

/-- C6 counterexample: the claim that all of views, clicks, organicClicks,
carts and orders never become negative is false — starting from a freshly
reset product (all counters 0), one cart-remove job with quantity 1 leaves
the carts counter at -1. -/
theorem carts_counter_goes_negative :
    numOf (((execOps RedisState.empty
      [(StatOp.resetCounters 1, 0), (StatOp.cartRemoved 1 1, 0)]).stats 1).carts) = -1 := by
  decide

/-- C6 amended: under every sequence of the repository's stat operations,
the counters views, clicks, organicClicks and orders never become negative
(every call site only adds non-negative deltas to them), but carts is
excluded: the cart-remove worker decrements it and can drive it below
zero. -/
theorem nonneg_counters_except_carts (st : RedisState) (tr : List (StatOp × Nat)) (k p : Nat)
    (h : ∀ q, NonnegNonCartCounters (st.stats q)) :
    NonnegNonCartCounters ((execOps st (tr.take k)).stats p) :=
  execOps_preserves_nonneg (tr.take k) st h p

theorem empty_state_nonneg : ∀ q, NonnegNonCartCounters (RedisState.empty.stats q) := by
  intro q
  refine ⟨?_, ?_, ?_, ?_⟩ <;> simp [RedisState.empty, CounterKeys.empty, numOf]

theorem nonneg_counters_except_carts_witness :
    (∀ q, NonnegNonCartCounters (RedisState.empty.stats q))
    ∧ NonnegNonCartCounters ((execOps RedisState.empty
        ([(StatOp.cartRemoved 1 1, 0)].take 1)).stats 1) :=
  ⟨empty_state_nonneg,
    nonneg_counters_except_carts RedisState.empty [(StatOp.cartRemoved 1 1, 0)] 1 1
      empty_state_nonneg⟩

/-- C5 counterexample: a single view event accepted by trackEvent produces
4 Counter Store calls (INCR on the views key, PFADD on the unique-viewers
key, INCR on the daily key, and the queued incrementStats call), not
exactly one. -/
theorem trackEvent_not_single_call :
    (trackEventCounterCalls 1 2 1 ProductEventType.view 0).length = 4
    ∧ (trackEventCounterCalls 1 2 1 ProductEventType.view 0).length ≠ 1 := by
  decide

/-- C5 amended: every event accepted by trackEvent produces more than one
Counter Store call — 4 for a view event and 3 for cart and order events:
the immediate per-metric INCR, (for views) the HyperLogLog PFADD, the daily
counter INCR, and the deferred incrementStats call of the queued job.  In
particular the views key of a view event is touched both by the immediate
INCR and by the queued incrementStats with views := 1, double-counting the
event. -/
theorem trackEvent_counter_calls_spec (pid uid qty day : Nat) (e : ProductEventType) :
    (trackEventCounterCalls pid uid qty e day).length
      = (match e with
         | ProductEventType.view => 4
         | ProductEventType.add_to_cart => 3
         | ProductEventType.order => 3)
    ∧ CounterStoreCall.incrKey (EventCounterKey.views pid)
        ∈ trackEventCounterCalls pid uid qty ProductEventType.view day
    ∧ CounterStoreCall.statsIncrement (viewDto pid)
        ∈ trackEventCounterCalls pid uid qty ProductEventType.view day := by
  refine ⟨?_, ?_, ?_⟩
  · cases e <;> rfl
  · simp [trackEventCounterCalls, incrementEventCounterCalls, queuedStatsCalls]
  · simp [trackEventCounterCalls, incrementEventCounterCalls, queuedStatsCalls]

/-- C1: evaluated at a state with product 7 dirty and fast-tier views 5,
neither flush path persists anything or clears the dirty mark — the
scheduled flush leaves the zeroed durable row and the dirty entry
untouched (its body is commented out), and syncRedisToDatabase leaves the
durable row untouched, leaves product 7 dirty (re-stamped), and still
reports 1 product synced. -/
theorem flush_paths_do_not_flush :
    (scheduledFlush dirtySevenState).db 7 = some { productId := 7 }
    ∧ (scheduledFlush dirtySevenState).redis.dirty 7 = some 1000
    ∧ numOf (((scheduledFlush dirtySevenState).redis.stats 7).views) = 5
    ∧ (syncRedisToDatabase dirtySevenState [7] 2000).1.db 7 = some { productId := 7 }
    ∧ (syncRedisToDatabase dirtySevenState [7] 2000).1.redis.dirty 7 = some 2000
    ∧ (syncRedisToDatabase dirtySevenState [7] 2000).2 = 1 :=
  ⟨rfl, rfl, rfl, rfl, rfl, rfl⟩

theorem ratesHold_mkResponse (p : Nat) (v cl oc ca od : Int) (bs : Rat) :
    RatesHold (mkResponse p v cl oc ca od bs) := by
  constructor
  · intro hv
    simp only [mkResponse] at hv ⊢
    rw [if_pos hv, if_pos hv]
    exact ⟨rfl, rfl⟩
  · intro hv
    simp only [mkResponse] at hv ⊢
    simp [hv]

theorem getStats_writes_cache (r : RedisState) (db : Nat → Option ProductStatRow) (p : Nat) :
    (getStats r db p).redis.cached p = some ((getStats r db p).resp) := by
  rcases hc : r.cached p with _ | resp
  · simp only [getStats, hc]
    simp [writeCache]
  · simp only [getStats, hc]

theorem getStats_cache_hit_no_db (r : RedisState) (db : Nat → Option ProductStatRow) (p : Nat)
    (x : ProductStatsResponse) (h : r.cached p = some x) :
    (getStats r db p).dbHit = false := by
  simp only [getStats, h]

/-- C8: when the computed cache is empty and the fast-tier counter keys of
the product are absent but a durable row exists, getStats returns the
durable totals, consults the durable store, re-seeds the fast-tier views
key from the row, and a second getStats on the resulting state does not
consult the durable store. -/
theorem getStats_db_fallback_reseeds (r : RedisState) (db : Nat → Option ProductStatRow)
    (p : Nat) (row : ProductStatRow)
    (hc : r.cached p = none)
    (hv : (r.stats p).views = none) (hcl : (r.stats p).clicks = none)
    (hca : (r.stats p).carts = none)
    (hdb : db p = some row) (hrow : row.productId = p) :
    (getStats r db p).resp.totalViews = row.totalViews
    ∧ (getStats r db p).dbHit = true
    ∧ ((getStats r db p).redis.stats p).views = some row.totalViews
    ∧ (getStats (getStats r db p).redis db p).dbHit = false := by
  refine ⟨?_, ?_, ?_, ?_⟩
  · simp only [getStats, hc]
    simp [hv, hcl, hca, numOf, hdb, mkResponse]
  · simp only [getStats, hc]
    simp [hv, hcl, hca, numOf, hdb]
  · simp only [getStats, hc]
    simp [hv, hcl, hca, numOf, hdb, writeCache, seedFromRow, hrow]
  · exact getStats_cache_hit_no_db _ db p _ (getStats_writes_cache r db p)

theorem getStats_db_fallback_reseeds_witness :
    (RedisState.empty.cached 3 = none)
    ∧ ((RedisState.empty.stats 3).views = none)
    ∧ (dbFifty 3 = some rowFifty)
    ∧ rowFifty.totalViews = 50
    ∧ ((getStats RedisState.empty dbFifty 3).resp.totalViews = rowFifty.totalViews
        ∧ (getStats RedisState.empty dbFifty 3).dbHit = true
        ∧ ((getStats RedisState.empty dbFifty 3).redis.stats 3).views = some rowFifty.totalViews
        ∧ (getStats (getStats RedisState.empty dbFifty 3).redis dbFifty 3).dbHit = false) :=
  ⟨rfl, rfl, rfl, rfl,
    getStats_db_fallback_reseeds RedisState.empty dbFifty 3 rowFifty rfl rfl rfl rfl rfl rfl⟩

/-- C9: in every state whose computed-cache entries already satisfy the
rate contract (an invariant, since only getStats writes cache entries),
the ProductStatsResponse returned by getStats satisfies conversionRate =
orders/views*100 and clickThroughRate = clicks/views*100 when views > 0
and both rates 0 when views = 0, and every cache entry after the call
still satisfies the contract. -/
theorem getStats_rate_formulas (r : RedisState) (db : Nat → Option ProductStatRow) (p : Nat)
    (hcache : ∀ q x, r.cached q = some x → RatesHold x) :
    RatesHold ((getStats r db p).resp)
    ∧ (∀ q x, (getStats r db p).redis.cached q = some x → RatesHold x) := by
  rcases hc : r.cached p with _ | resp
  · constructor
    · simp only [getStats, hc]
      exact ratesHold_mkResponse _ _ _ _ _ _ _
    · intro q x hx
      simp only [getStats, hc, writeCache] at hx
      by_cases hq : q = p
      · rw [if_pos hq] at hx
        exact Option.some.inj hx ▸ ratesHold_mkResponse _ _ _ _ _ _ _
      · rw [if_neg hq] at hx
        split at hx
        · split at hx
          · simp only [seedFromRow] at hx
            exact hcache q x hx
          · exact hcache q x hx
        · exact hcache q x hx
  · constructor
    · simp only [getStats, hc]
      exact hcache p resp hc
    · intro q x hx
      simp only [getStats, hc] at hx
      exact hcache q x hx

theorem twoHundredViews_cache_ok :
    ∀ q x, redisTwoHundredViews.cached q = some x → RatesHold x := by
  intro q x h
  simp [redisTwoHundredViews] at h

theorem getStats_rate_formulas_witness :
    (∀ q x, redisTwoHundredViews.cached q = some x → RatesHold x)
    ∧ RatesHold ((getStats redisTwoHundredViews dbEmpty 1).resp)
    ∧ (getStats redisTwoHundredViews dbEmpty 1).resp.conversionRate = 5 :=
  ⟨twoHundredViews_cache_ok,
    (getStats_rate_formulas redisTwoHundredViews dbEmpty 1 twoHundredViews_cache_ok).1, by
    norm_num [getStats, redisTwoHundredViews, dbEmpty, mkResponse, numOf, qOf,
      CounterKeys.empty]⟩

end EBF
